import Mathlib

/-!
Shallow embedding of the face-verification page (`src/unnamed/part_000`,
a React client component) for checking the natural-language specification
against the code.

The component keeps four pieces of React state — `uploadedImage`,
`cameraImage`, `verificationResult`, `isLoading` — and three refs
(`videoRef`, `canvasRef`, `streamRef`).  Its handlers are
`handleImageUpload`, `startCamera`, `captureImage` and `verifyFaces`.
Each handler is embedded below as a pure state-transition function; the
browser / face-api.js environment (file reads, `getUserMedia`,
canvas rasterization, image fetches, face detection, descriptor
distance) is passed in explicitly as data, since those are external
collaborators of the code under verification.

Numbers: the JavaScript floats appearing in the threshold decision are
embedded as rationals (`ℚ`); exceptions thrown by the environment are
embedded as `Except Unit`.
-/

/-- Embedding of the verification outcome.  The source stores a status
string in `verificationResult`; each constructor corresponds to exactly
one of the strings the source can store:
* `missingInput`      ↦ "Please upload an image and capture a camera image first."
* `matchFound c`      ↦ "Match! Confidence: …%" with confidence value `c`
* `noMatch`           ↦ "No Match - Different persons detected"
* `noFaceDetected`    ↦ "Face not detected in one or both images. Please try again with clearer images."
* `verificationError` ↦ "Error occurred during verification. Please try again."
-/
inductive VerificationResult where
  | missingInput : VerificationResult
  | matchFound (confidence : ℚ) : VerificationResult
  | noMatch : VerificationResult
  | noFaceDetected : VerificationResult
  | verificationError : VerificationResult
deriving DecidableEq, Repr

/-- Embedding of the component's React state.  `resultPair` is a ghost
field not present in the source: it records which
(`uploadedImage`, `cameraImage`) pair the stored `verificationResult`
was computed from (`none` when no result is displayed or the result was
not computed from a pair).  The handlers update it exactly alongside
`verificationResult`, so it adds bookkeeping but changes no behavior. -/
structure AppState where
  uploadedImage : Option String
  cameraImage : Option String
  verificationResult : Option VerificationResult
  resultPair : Option (String × String)
  isLoading : Bool
deriving DecidableEq, Repr

/-- Embedding of `handleImageUpload` (source lines 41–53).  The
argument is the outcome of the browser file-picker and `FileReader`:
`none` when `event.target.files` is empty (no file selected),
`some none` when a file was selected but `e.target.result` is empty,
`some (some d)` when the `FileReader` produced the data URL `d`.
Only in the last case does the handler store the new reference image
and reset the result, in the same update. -/
def handleImageUpload (file : Option (Option String)) (s : AppState) : AppState :=
  match file with
  | none => s
  | some none => s
  | some (some d) =>
      { s with uploadedImage := some d, verificationResult := none, resultPair := none }

/-- Environment seen by `captureImage`: which refs are mounted, whether
`canvas.getContext` returns a context, the live video's intrinsic
dimensions (`videoWidth`/`videoHeight`, both 0 when no stream has ever
delivered a frame), and the JPEG data URL that `canvas.toDataURL`
returns once the current frame has been drawn at those dimensions. -/
structure CaptureEnv where
  canvasPresent : Bool
  videoPresent : Bool
  contextPresent : Bool
  videoWidth : Nat
  videoHeight : Nat
  frameData : String
deriving DecidableEq, Repr

/-- Value of `canvas.toDataURL('image/jpeg')` after
`drawImage(video, 0, 0, canvas.width, canvas.height)` with the canvas
resized to the video's intrinsic dimensions.  Per the HTML canvas
specification, a canvas with zero width or height yields the empty data
URL `"data:,"`; otherwise the environment's encoding of the drawn frame
is returned. -/
def snapshotData (env : CaptureEnv) : String :=
  if env.videoWidth = 0 || env.videoHeight = 0 then "data:," else env.frameData

/-- Embedding of `captureImage` (source lines 78–90).  If both the
canvas and video refs are mounted and a 2d context is available, the
current frame is rasterized and stored as `cameraImage` and the result
is reset, in the same update; otherwise nothing happens.  Note the
source never checks whether the camera is streaming. -/
def captureImage (env : CaptureEnv) (s : AppState) : AppState :=
  if env.canvasPresent && env.videoPresent then
    if env.contextPresent then
      { s with cameraImage := some (snapshotData env),
               verificationResult := none, resultPair := none }
    else s
  else s

/-- Face descriptor: the fixed-length numeric vector face-api.js
returns with a detection. -/
def Descriptor := List ℚ

/-- Environment seen by `verifyFaces`: the face-api.js calls it makes.
`fetchImage` decodes a data URL into an image (numbered handle), or
throws; `detect` is `detectSingleFace(..).withFaceLandmarks().withFaceDescriptor()`,
returning `none` when no face is found, or throwing; `dist` is
`faceapi.euclideanDistance` on two descriptors. -/
structure Env where
  fetchImage : String → Except Unit Nat
  detect : Nat → Except Unit (Option Descriptor)
  dist : Descriptor → Descriptor → ℚ

/-- One observable call into the face-api.js engine, recorded in order. -/
inductive EngineCall where
  | fetch (src : String) : EngineCall
  | detect (img : Nat) : EngineCall
  | distCall : EngineCall
deriving DecidableEq, Repr

/-- Fixed match threshold from the source (`const threshold = 0.6`). -/
def threshold : ℚ := 3 / 5

/-- Embedding of the threshold decision of `verifyFaces` (source lines
128–134): strict comparison against the threshold; on a match the
confidence is `(1 - distance / threshold) * 100`. -/
def decision (distance : ℚ) : VerificationResult :=
  if distance < threshold then
    VerificationResult.matchFound ((1 - distance / threshold) * 100)
  else
    VerificationResult.noMatch

/-- Embedding of `verifyFaces` (source lines 92–144) as a big-step
function: given the engine environment and the state at invocation, it
returns the state after the call completes together with the ordered
list of engine calls performed.  Control flow mirrors the source: a
missing input returns the missing-input message before touching the
engine or `isLoading`; otherwise `isLoading` is set, both images are
fetched and detected (both detections run even if the first finds no
face), a thrown step lands in the `catch` which stores the generic
error message, and the `finally` clears `isLoading` on every path. -/
def verifyFaces (env : Env) (s : AppState) : AppState × List EngineCall :=
  match s.uploadedImage, s.cameraImage with
  | some up, some cam =>
      -- setIsLoading(true); try { ... } catch { ... } finally { setIsLoading(false) }
      match env.fetchImage up with
      | Except.error _ =>
          ({ s with verificationResult := some VerificationResult.verificationError,
                    resultPair := none, isLoading := false },
           [EngineCall.fetch up])
      | Except.ok upImg =>
          match env.fetchImage cam with
          | Except.error _ =>
              ({ s with verificationResult := some VerificationResult.verificationError,
                        resultPair := none, isLoading := false },
               [EngineCall.fetch up, EngineCall.fetch cam])
          | Except.ok camImg =>
              match env.detect upImg with
              | Except.error _ =>
                  ({ s with verificationResult := some VerificationResult.verificationError,
                            resultPair := none, isLoading := false },
                   [EngineCall.fetch up, EngineCall.fetch cam, EngineCall.detect upImg])
              | Except.ok upDet =>
                  match env.detect camImg with
                  | Except.error _ =>
                      ({ s with verificationResult := some VerificationResult.verificationError,
                                resultPair := none, isLoading := false },
                       [EngineCall.fetch up, EngineCall.fetch cam,
                        EngineCall.detect upImg, EngineCall.detect camImg])
                  | Except.ok camDet =>
                      match upDet, camDet with
                      | some u, some c =>
                          ({ s with verificationResult := some (decision (env.dist u c)),
                                    resultPair := some (up, cam), isLoading := false },
                           [EngineCall.fetch up, EngineCall.fetch cam,
                            EngineCall.detect upImg, EngineCall.detect camImg,
                            EngineCall.distCall])
                      | _, _ =>
                          ({ s with verificationResult := some VerificationResult.noFaceDetected,
                                    resultPair := none, isLoading := false },
                           [EngineCall.fetch up, EngineCall.fetch cam,
                            EngineCall.detect upImg, EngineCall.detect camImg])
  | _, _ =>
      ({ s with verificationResult := some VerificationResult.missingInput,
                resultPair := none }, [])

/-- Embedding of the camera-stream bookkeeping around `startCamera`
(source lines 55–76) and `streamRef`.  Media streams handed out by
`getUserMedia` are numbered `0, 1, …` in acquisition order: `count` is
how many were ever acquired, `streamRef` is the stream currently held
by `streamRef.current`, and `stopped` lists the streams whose tracks
have been stopped. -/
structure CamState where
  streamRef : Option Nat
  count : Nat
  stopped : List Nat
deriving DecidableEq, Repr

/-- Initial camera state: no stream ever acquired. -/
def camInit : CamState := { streamRef := none, count := 0, stopped := [] }

/-- Embedding of one `startCamera` call (source lines 55–76).  `ok`
tells whether `getUserMedia` succeeds.  First, if `streamRef.current`
holds a stream, every track of it is stopped.  Then a new stream is
requested: on success it becomes the current stream; on failure the
`catch` only logs and alerts, leaving the (now stopped) old reference
in place. -/
def startCamera (ok : Bool) (s : CamState) : CamState :=
  let s1 :=
    match s.streamRef with
    | some i => { s with stopped := i :: s.stopped }
    | none => s
  if ok then
    { s1 with streamRef := some s1.count, count := s1.count + 1 }
  else s1

/-- Run a sequence of `startCamera` calls (each entry: did
`getUserMedia` succeed) from a given state. -/
def runStarts (s : CamState) (evs : List Bool) : CamState :=
  evs.foldl (fun st ok => startCamera ok st) s

/-- Stream `i` is active: it was acquired and its tracks were never
stopped — an unreleased device handle. -/
def activeStream (s : CamState) (i : Nat) : Prop :=
  i < s.count ∧ i ∉ s.stopped

/-- Whole-page state for the event-level model: the React state plus
the queue of `verifyFaces` executions that have passed the input check
and set `isLoading`, but whose asynchronous body has not yet completed.
Each pending entry records the (`uploadedImage`, `cameraImage`) pair
captured by the handler's closure at invocation time. -/
structure SysState where
  app : AppState
  pending : List (String × String)
deriving DecidableEq, Repr

/-- Initial page state: nothing uploaded, captured, displayed, or in
flight. -/
def sysInit : SysState :=
  { app := { uploadedImage := none, cameraImage := none,
             verificationResult := none, resultPair := none, isLoading := false },
    pending := [] }

/-- User/environment events of the page.
* `uploadEv f` — the file input fires `handleImageUpload`, with `f` the
  file-picker / `FileReader` outcome as in `handleImageUpload`;
* `captureEv env` — the Capture button fires `captureImage`;
* `verifyClick` — the Verify button is clicked.  The button is rendered
  with `disabled={isLoading || !uploadedImage || !cameraImage}`, so the
  click invokes `verifyFaces` only when enabled; the handler then runs
  its synchronous prefix (input check passes, `setIsLoading(true)`) and
  suspends at its first `await`;
* `verifyDone f` — a suspended `verifyFaces` body resumes and
  completes, storing the result `f up cam` computed from the images its
  closure captured at invocation time. -/
inductive Ev where
  | uploadEv (file : Option (Option String)) : Ev
  | captureEv (env : CaptureEnv) : Ev
  | verifyClick : Ev
  | verifyDone (f : String → String → VerificationResult) : Ev

/-- Small-step transition of the page on one event. -/
def stepEv (s : SysState) (e : Ev) : SysState :=
  match e with
  | Ev.uploadEv f => { s with app := handleImageUpload f s.app }
  | Ev.captureEv env => { s with app := captureImage env s.app }
  | Ev.verifyClick =>
      match s.app.uploadedImage, s.app.cameraImage, s.app.isLoading with
      | some up, some cam, false =>
          { s with app := { s.app with isLoading := true },
                   pending := s.pending ++ [(up, cam)] }
      | _, _, _ => s
  | Ev.verifyDone f =>
      match s.pending with
      | [] => s
      | (up, cam) :: rest =>
          { app := { s.app with verificationResult := some (f up cam),
                                resultPair := some (up, cam), isLoading := false },
            pending := rest }

/-- Run a sequence of events from a given page state. -/
def runEvs (s : SysState) (evs : List Ev) : SysState :=
  evs.foldl stepEv s

/-- The displayed result is attributable to the current input pair:
whenever a result computed from a pair is displayed, that pair is the
currently displayed (`uploadedImage`, `cameraImage`). -/
def staleFree (s : SysState) : Prop :=
  ∀ up cam, s.app.resultPair = some (up, cam) →
    s.app.uploadedImage = some up ∧ s.app.cameraImage = some cam

/-- Abbreviation: does some step of `verifyFaces` throw, in the order
the source performs them (fetch uploaded, fetch camera, detect
uploaded, detect camera)? -/
def envFails (env : Env) (up cam : String) : Bool :=
  match env.fetchImage up with
  | Except.error _ => true
  | Except.ok i₁ =>
    match env.fetchImage cam with
    | Except.error _ => true
    | Except.ok i₂ =>
      match env.detect i₁ with
      | Except.error _ => true
      | Except.ok _ =>
        match env.detect i₂ with
        | Except.error _ => true
        | Except.ok _ => false

/-- Decidability of `activeStream`, for evaluating concrete camera
states. -/
instance (s : CamState) (i : Nat) : Decidable (activeStream s i) := by
  unfold activeStream
  infer_instance

/-- Invariant of the camera bookkeeping: the current stream reference
was actually acquired, and every acquired stream whose tracks were
never stopped is the current stream reference. -/
def camInv (s : CamState) : Prop :=
  (∀ i, s.streamRef = some i → i < s.count) ∧
  (∀ i, i < s.count → i ∉ s.stopped → s.streamRef = some i)

/-- Invariant of the in-flight verification bookkeeping: at most one
`verifyFaces` body is suspended, and `isLoading` is set exactly while
one is. -/
def flightInv (s : SysState) : Prop :=
  s.pending.length ≤ 1 ∧ (s.app.isLoading = true ↔ s.pending ≠ [])

/-- Every suspended `verifyFaces` body captured the currently displayed
input pair. -/
def pendingMatches (s : SysState) : Prop :=
  ∀ p ∈ s.pending, s.app.uploadedImage = some p.1 ∧ s.app.cameraImage = some p.2

/-- Combined invariant for traces without mid-flight input
replacement. -/
def quietInv (s : SysState) : Prop := staleFree s ∧ pendingMatches s

/-- The trace restriction under which staleness is avoided: every
upload and capture event occurs while no verification is in flight. -/
def noMidflightReplace : SysState → List Ev → Bool
  | _, [] => true
  | s, e :: rest =>
      (match e with
       | Ev.uploadEv _ => s.pending.isEmpty
       | Ev.captureEv _ => s.pending.isEmpty
       | _ => true) && noMidflightReplace (stepEv s e) rest

/-- App state with both inputs present and no result displayed. -/
def appBoth : AppState :=
  { uploadedImage := some "ref", cameraImage := some "live",
    verificationResult := none, resultPair := none, isLoading := false }

/-- App state with no reference image but a present snapshot. -/
def appNoUpload : AppState :=
  { uploadedImage := none, cameraImage := some "live",
    verificationResult := none, resultPair := none, isLoading := false }

/-- App state holding a displayed match result for the present pair. -/
def appWithResult : AppState :=
  { uploadedImage := some "ref", cameraImage := some "live",
    verificationResult := some (VerificationResult.matchFound 80),
    resultPair := some ("ref", "live"), isLoading := false }

/-- Engine environment where every call succeeds and the descriptors
are at distance 3/10. -/
def envMatch : Env :=
  { fetchImage := fun _ => Except.ok 0,
    detect := fun _ => Except.ok (some ([3/10] : List ℚ)),
    dist := fun _ _ => 3 / 10 }

/-- Engine environment where fetching either image throws (network /
resource failure). -/
def envFetchFail : Env :=
  { fetchImage := fun _ => Except.error (),
    detect := fun _ => Except.ok none,
    dist := fun _ _ => 0 }

/-- Engine environment where no face is found in either image. -/
def envNoFace : Env :=
  { fetchImage := fun _ => Except.ok 0,
    detect := fun _ => Except.ok none,
    dist := fun _ _ => 0 }

/-- Engine environment for a `verifyFaces` call arriving before model
initialization completes: image fetches still succeed, but face-api.js
throws from `detectSingleFace` because the required nets are not
loaded. -/
def envModelNotLoaded : Env :=
  { fetchImage := fun _ => Except.ok 0,
    detect := fun _ => Except.error (),
    dist := fun _ _ => 0 }

/-- Capture environment of a page where the video and canvas elements
are mounted and a 2d context exists, but the camera was never started:
the video has no stream, so its intrinsic dimensions are 0 × 0. -/
def envNoStream : CaptureEnv :=
  { canvasPresent := true, videoPresent := true, contextPresent := true,
    videoWidth := 0, videoHeight := 0, frameData := "unusedFrame" }

/-- Capture environment of a streaming page delivering a 300 × 300
frame that encodes to the data URL "live0". -/
def envCapOk : CaptureEnv :=
  { canvasPresent := true, videoPresent := true, contextPresent := true,
    videoWidth := 300, videoHeight := 300, frameData := "live0" }

/-- Event trace in which the reference image is replaced while a
verification is in flight: upload "refA", capture "live0", click
Verify, upload "refB", and then the suspended verification completes
with a match. -/
def staleTrace : List Ev :=
  [Ev.uploadEv (some (some "refA")), Ev.captureEv envCapOk, Ev.verifyClick,
   Ev.uploadEv (some (some "refB")),
   Ev.verifyDone (fun _ _ => VerificationResult.matchFound 100)]

/-- Event trace whose uploads and captures all happen while no
verification is in flight. -/
def quietTrace : List Ev :=
  [Ev.uploadEv (some (some "refA")), Ev.captureEv envCapOk, Ev.verifyClick,
   Ev.verifyDone (fun _ _ => VerificationResult.matchFound 100)]

/-- Page state mid-verification: both inputs present, `isLoading` set,
one suspended `verifyFaces` body. -/
def sysBusy : SysState :=
  { app := { uploadedImage := some "ref", cameraImage := some "live",
             verificationResult := none, resultPair := none, isLoading := true },
    pending := [("ref", "live")] }

/-- C1: for every verify call in which both images yield a face
descriptor, the stored result is `decision` applied to the Euclidean
distance `d` of the two descriptors, where `decision` matches exactly
when `d < 3/5` with confidence `(1 - d / (3/5)) * 100` (50 at
`d = 3/10`, 100 at `d = 0`) and returns no-match for `3/5 ≤ d`,
including exactly at the threshold. -/
theorem decision_of_distance
    (env : Env) (s : AppState) (up cam : String) (i₁ i₂ : Nat) (d₁ d₂ : Descriptor)
    (hu : s.uploadedImage = some up) (hc : s.cameraImage = some cam)
    (hf₁ : env.fetchImage up = Except.ok i₁) (hf₂ : env.fetchImage cam = Except.ok i₂)
    (hd₁ : env.detect i₁ = Except.ok (some d₁)) (hd₂ : env.detect i₂ = Except.ok (some d₂)) :
    (verifyFaces env s).1.verificationResult = some (decision (env.dist d₁ d₂)) ∧
    (∀ d : ℚ, d < 3 / 5 →
      decision d = VerificationResult.matchFound ((1 - d / (3 / 5)) * 100)) ∧
    (∀ d : ℚ, 3 / 5 ≤ d → decision d = VerificationResult.noMatch) ∧
    decision (3 / 10) = VerificationResult.matchFound 50 ∧
    decision 0 = VerificationResult.matchFound 100 ∧
    decision (3 / 5) = VerificationResult.noMatch := by
  obtain ⟨u0, c0, r0, p0, l0⟩ := s
  simp only [AppState.uploadedImage, AppState.cameraImage] at hu hc
  subst hu; subst hc
  refine ⟨?_, ?_, ?_, by norm_num [decision, threshold], by norm_num [decision, threshold],
    by norm_num [decision, threshold]⟩
  · simp [verifyFaces, hf₁, hf₂, hd₁, hd₂]
  · intro d hd
    simp only [decision, threshold]
    rw [if_pos hd]
  · intro d hd
    simp only [decision, threshold]
    rw [if_neg (not_lt.mpr hd)]

/-- Witness for `decision_of_distance` at a concrete environment in
which both descriptors are found and lie at distance 3/10. -/
theorem decision_of_distance_witness :
    (verifyFaces envMatch appBoth).1.verificationResult = some (decision ((3 : ℚ) / 10)) ∧
    decision ((3 : ℚ) / 10) = VerificationResult.matchFound 50 :=
  ⟨(decision_of_distance envMatch appBoth "ref" "live" 0 0 ([3/10] : List ℚ) ([3/10] : List ℚ)
      rfl rfl rfl rfl rfl rfl).1,
   (decision_of_distance envMatch appBoth "ref" "live" 0 0 ([3/10] : List ℚ) ([3/10] : List ℚ)
      rfl rfl rfl rfl rfl rfl).2.2.2.1⟩

/-- C3: when either input is absent, `verifyFaces` immediately stores
the missing-input outcome, leaves the inputs and the busy flag
untouched, and performs no engine call at all. -/
theorem verify_missing_input (env : Env) (s : AppState)
    (h : s.uploadedImage = none ∨ s.cameraImage = none) :
    (verifyFaces env s).1.verificationResult = some VerificationResult.missingInput ∧
    (verifyFaces env s).1.uploadedImage = s.uploadedImage ∧
    (verifyFaces env s).1.cameraImage = s.cameraImage ∧
    (verifyFaces env s).1.isLoading = s.isLoading ∧
    (verifyFaces env s).2 = [] := by
  obtain ⟨u0, c0, r0, p0, l0⟩ := s
  simp only [AppState.uploadedImage, AppState.cameraImage] at h
  rcases h with h | h
  · subst h
    cases c0 <;> simp [verifyFaces]
  · subst h
    cases u0 <;> simp [verifyFaces]

/-- Witness for `verify_missing_input`: no reference image but a
present snapshot. -/
theorem verify_missing_input_witness :
    (verifyFaces envMatch appNoUpload).1.verificationResult =
      some VerificationResult.missingInput ∧
    (verifyFaces envMatch appNoUpload).2 = [] :=
  ⟨(verify_missing_input envMatch appNoUpload (Or.inl rfl)).1,
   (verify_missing_input envMatch appNoUpload (Or.inl rfl)).2.2.2.2⟩

/-- C4: with both inputs present, successful fetches, and at least one
detection returning no face, `verifyFaces` stores the no-face-detected
outcome — never a match or no-match — and never computes a descriptor
distance. -/
theorem verify_no_face_detected
    (env : Env) (s : AppState) (up cam : String) (i₁ i₂ : Nat)
    (upDet camDet : Option Descriptor)
    (hu : s.uploadedImage = some up) (hc : s.cameraImage = some cam)
    (hf₁ : env.fetchImage up = Except.ok i₁) (hf₂ : env.fetchImage cam = Except.ok i₂)
    (hd₁ : env.detect i₁ = Except.ok upDet) (hd₂ : env.detect i₂ = Except.ok camDet)
    (h : upDet = none ∨ camDet = none) :
    (verifyFaces env s).1.verificationResult = some VerificationResult.noFaceDetected ∧
    (∀ c, (verifyFaces env s).1.verificationResult ≠ some (VerificationResult.matchFound c)) ∧
    (verifyFaces env s).1.verificationResult ≠ some VerificationResult.noMatch ∧
    EngineCall.distCall ∉ (verifyFaces env s).2 := by
  obtain ⟨u0, c0, r0, p0, l0⟩ := s
  simp only [AppState.uploadedImage, AppState.cameraImage] at hu hc
  subst hu; subst hc
  rcases h with h | h
  · subst h
    cases camDet <;> simp [verifyFaces, hf₁, hf₂, hd₁, hd₂]
  · subst h
    cases upDet <;> simp [verifyFaces, hf₁, hf₂, hd₁, hd₂]

/-- Witness for `verify_no_face_detected`: both inputs present but the
engine finds a face in neither image. -/
theorem verify_no_face_detected_witness :
    (verifyFaces envNoFace appBoth).1.verificationResult =
      some VerificationResult.noFaceDetected ∧
    EngineCall.distCall ∉ (verifyFaces envNoFace appBoth).2 :=
  ⟨(verify_no_face_detected envNoFace appBoth "ref" "live" 0 0 none none
      rfl rfl rfl rfl rfl rfl (Or.inl rfl)).1,
   (verify_no_face_detected envNoFace appBoth "ref" "live" 0 0 none none
      rfl rfl rfl rfl rfl rfl (Or.inl rfl)).2.2.2⟩

/-- C10: an upload event with no file selected leaves the entire
application state — reference image, snapshot, and result — exactly as
it was. -/
theorem handleImageUpload_no_file (s : AppState) : handleImageUpload none s = s := rfl

/-- C9 (failing input): clicking Capture with the video and canvas
elements mounted but the camera never started does not leave the
snapshot unchanged — `captureImage` silently stores the blank data URL
"data:," as the new snapshot and clears the displayed result, because
the source never checks that the camera is streaming. -/
theorem captureImage_blank_when_not_streaming :
    (captureImage envNoStream appWithResult).cameraImage = some "data:," ∧
    appWithResult.cameraImage = some "live" ∧
    (captureImage envNoStream appWithResult).verificationResult = none :=
  ⟨rfl, rfl, rfl⟩

/-- C5: `verifyFaces` never lets an engine failure escape: it always
returns a typed outcome, a busy flag that was clear on entry is clear
on exit on every path, and whenever any fetch or detection step throws
the stored outcome is the generic verification error. -/
theorem verify_catches_failures :
    (∀ env : Env, ∀ s : AppState, s.isLoading = false →
      ((verifyFaces env s).1).isLoading = false) ∧
    (∀ env : Env, ∀ s : AppState, ∀ up cam : String,
      s.uploadedImage = some up → s.cameraImage = some cam →
      (((verifyFaces env s).1).isLoading = false ∧
       (∃ r, ((verifyFaces env s).1).verificationResult = some r) ∧
       (envFails env up cam = true →
         ((verifyFaces env s).1).verificationResult =
           some VerificationResult.verificationError))) := by
  constructor
  · intro env s h
    obtain ⟨u0, c0, r0, p0, l0⟩ := s
    simp only [AppState.isLoading] at h
    subst h
    cases u0 with
    | none => cases c0 <;> simp [verifyFaces]
    | some up =>
      cases c0 with
      | none => simp [verifyFaces]
      | some cam =>
        cases hfu : env.fetchImage up with
        | error e => simp [verifyFaces, hfu]
        | ok i₁ =>
          cases hfc : env.fetchImage cam with
          | error e => simp [verifyFaces, hfu, hfc]
          | ok i₂ =>
            cases hdu : env.detect i₁ with
            | error e => simp [verifyFaces, hfu, hfc, hdu]
            | ok du =>
              cases hdc : env.detect i₂ with
              | error e => simp [verifyFaces, hfu, hfc, hdu, hdc]
              | ok dc => cases du <;> cases dc <;> simp [verifyFaces, hfu, hfc, hdu, hdc]
  · intro env s up cam hu hc
    obtain ⟨u0, c0, r0, p0, l0⟩ := s
    simp only [AppState.uploadedImage, AppState.cameraImage] at hu hc
    subst hu; subst hc
    cases hfu : env.fetchImage up with
    | error e => simp [verifyFaces, envFails, hfu]
    | ok i₁ =>
      cases hfc : env.fetchImage cam with
      | error e => simp [verifyFaces, envFails, hfu, hfc]
      | ok i₂ =>
        cases hdu : env.detect i₁ with
        | error e => simp [verifyFaces, envFails, hfu, hfc, hdu]
        | ok du =>
          cases hdc : env.detect i₂ with
          | error e => simp [verifyFaces, envFails, hfu, hfc, hdu, hdc]
          | ok dc => cases du <;> cases dc <;> simp [verifyFaces, envFails, hfu, hfc, hdu, hdc]

/-- Witness for `verify_catches_failures`: a network failure fetching
the images is converted to the generic verification-error outcome with
the busy flag clear. -/
theorem verify_catches_failures_witness :
    ((verifyFaces envFetchFail appBoth).1).isLoading = false ∧
    ((verifyFaces envFetchFail appBoth).1).verificationResult =
      some VerificationResult.verificationError :=
  ⟨(verify_catches_failures.2 envFetchFail appBoth "ref" "live" rfl rfl).1,
   (verify_catches_failures.2 envFetchFail appBoth "ref" "live" rfl rfl).2.2 rfl⟩

/-- C8 (counterexample): a `verifyFaces` call arriving before model
initialization completes — the engine throws from both detections while
fetches succeed — is stored as the generic verification-error outcome,
the very same outcome used for any other failure; and the outcome type
of the code is exhausted by missing-input, match, no-match,
no-face-detected and verification-error, so no distinct model-not-ready
outcome exists to be reported. -/
theorem verify_before_init_counterexample :
    (verifyFaces envModelNotLoaded appBoth).1.verificationResult =
      some VerificationResult.verificationError ∧
    (verifyFaces envModelNotLoaded appBoth).1.verificationResult =
      (verifyFaces envFetchFail appBoth).1.verificationResult ∧
    (∀ r : VerificationResult,
      r = VerificationResult.missingInput ∨ r = VerificationResult.noMatch ∨
      r = VerificationResult.noFaceDetected ∨ r = VerificationResult.verificationError ∨
      ∃ c, r = VerificationResult.matchFound c) := by
  refine ⟨rfl, rfl, ?_⟩
  intro r
  cases r <;> simp

/-- C8 (amended): a verify call arriving while the embedding-engine
models are not loaded — so every detection call throws — does not hang
and does not leak the failure: it completes with the generic
verification-error outcome and a clear busy flag. -/
theorem verify_before_init_generic_error
    (env : Env) (s : AppState) (up cam : String)
    (hu : s.uploadedImage = some up) (hc : s.cameraImage = some cam)
    (hdet : ∀ i, env.detect i = Except.error ()) :
    (verifyFaces env s).1.verificationResult = some VerificationResult.verificationError ∧
    (verifyFaces env s).1.isLoading = false := by
  obtain ⟨u0, c0, r0, p0, l0⟩ := s
  simp only [AppState.uploadedImage, AppState.cameraImage] at hu hc
  subst hu; subst hc
  cases hfu : env.fetchImage up with
  | error e => simp [verifyFaces, hfu]
  | ok i₁ =>
    cases hfc : env.fetchImage cam with
    | error e => simp [verifyFaces, hfu, hfc]
    | ok i₂ => simp [verifyFaces, hfu, hfc, hdet i₁]

/-- Witness for `verify_before_init_generic_error` at the concrete
model-not-loaded environment. -/
theorem verify_before_init_generic_error_witness :
    (verifyFaces envModelNotLoaded appBoth).1.verificationResult =
      some VerificationResult.verificationError ∧
    (verifyFaces envModelNotLoaded appBoth).1.isLoading = false :=
  verify_before_init_generic_error envModelNotLoaded appBoth "ref" "live" rfl rfl
    (fun _ => rfl)

/-- Computation rule: first start with no prior stream succeeds. -/
theorem startCamera_none_true (n : Nat) (st : List Nat) :
    startCamera true (CamState.mk none n st) = CamState.mk (some n) (n + 1) st := rfl

/-- Computation rule: start with no prior stream, request denied. -/
theorem startCamera_none_false (n : Nat) (st : List Nat) :
    startCamera false (CamState.mk none n st) = CamState.mk none n st := rfl

/-- Computation rule: start over a prior stream stops it first, then
acquires. -/
theorem startCamera_some_true (j n : Nat) (st : List Nat) :
    startCamera true (CamState.mk (some j) n st) = CamState.mk (some n) (n + 1) (j :: st) := rfl

/-- Computation rule: start over a prior stream stops it; the request
is then denied, leaving the stopped stream referenced. -/
theorem startCamera_some_false (j n : Nat) (st : List Nat) :
    startCamera false (CamState.mk (some j) n st) = CamState.mk (some j) n (j :: st) := rfl

/-- The camera bookkeeping invariant holds initially. -/
theorem camInv_init : camInv camInit := by
  constructor
  · intro i hi
    exact absurd hi (by simp [camInit])
  · intro i hi
    exact absurd hi (by simp [camInit])

/-- One `startCamera` call preserves the camera bookkeeping
invariant. -/
theorem camInv_startCamera (ok : Bool) (s : CamState) (h : camInv s) :
    camInv (startCamera ok s) := by
  obtain ⟨h1, h2⟩ := h
  obtain ⟨ref, count, stopped⟩ := s
  simp only [camInv, CamState.streamRef, CamState.count, CamState.stopped] at h1 h2
  cases ref with
  | none =>
    cases ok with
    | false =>
      rw [startCamera_none_false]
      exact ⟨h1, h2⟩
    | true =>
      rw [startCamera_none_true]
      constructor
      · intro i hi
        simp only [CamState.streamRef, Option.some.injEq] at hi
        simp only [CamState.count]
        omega
      · intro i hic his
        simp only [CamState.count] at hic
        simp only [CamState.stopped] at his
        simp only [CamState.streamRef, Option.some.injEq]
        rcases Nat.lt_succ_iff_lt_or_eq.mp hic with hlt | heq
        · exact absurd (h2 i hlt his) (by simp)
        · omega
  | some j =>
    cases ok with
    | false =>
      rw [startCamera_some_false]
      constructor
      · intro i hi
        simp only [CamState.streamRef, Option.some.injEq] at hi
        simp only [CamState.count]
        exact hi ▸ h1 j rfl
      · intro i hic his
        simp only [CamState.count] at hic
        simp only [CamState.stopped, List.mem_cons, not_or] at his
        exact absurd (Option.some.inj (h2 i hic his.2)).symm his.1
    | true =>
      rw [startCamera_some_true]
      constructor
      · intro i hi
        simp only [CamState.streamRef, Option.some.injEq] at hi
        simp only [CamState.count]
        omega
      · intro i hic his
        simp only [CamState.count] at hic
        simp only [CamState.stopped, List.mem_cons, not_or] at his
        simp only [CamState.streamRef, Option.some.injEq]
        rcases Nat.lt_succ_iff_lt_or_eq.mp hic with hlt | heq
        · exact absurd (Option.some.inj (h2 i hlt his.2)).symm his.1
        · omega

/-- The camera bookkeeping invariant holds after any sequence of
`startCamera` calls. -/
theorem camInv_runStarts (s : CamState) (h : camInv s) (evs : List Bool) :
    camInv (runStarts s evs) := by
  induction evs generalizing s with
  | nil => exact h
  | cons e rest ih => exact ih (startCamera e s) (camInv_startCamera e s h)

/-- C7: after any sequence of `startCamera` calls, at most one stream
is active (unstopped), any active stream is the currently referenced
one (no leaked device handle), and any call made while a stream is
referenced stops that stream's tracks before requesting the new one. -/
theorem startCamera_at_most_one_session :
    (∀ evs : List Bool, ∀ i j : Nat,
      activeStream (runStarts camInit evs) i →
      activeStream (runStarts camInit evs) j → i = j) ∧
    (∀ evs : List Bool, ∀ i : Nat,
      activeStream (runStarts camInit evs) i →
      (runStarts camInit evs).streamRef = some i) ∧
    (∀ s : CamState, ∀ ok : Bool, ∀ i : Nat,
      s.streamRef = some i → i ∈ (startCamera ok s).stopped) := by
  have key : ∀ evs : List Bool, ∀ i : Nat,
      activeStream (runStarts camInit evs) i →
      (runStarts camInit evs).streamRef = some i := by
    intro evs i hi
    exact (camInv_runStarts camInit camInv_init evs).2 i hi.1 hi.2
  refine ⟨?_, key, ?_⟩
  · intro evs i j hi hj
    exact Option.some.inj ((key evs i hi).symm.trans (key evs j hj))
  · intro s ok i hi
    obtain ⟨ref, count, stopped⟩ := s
    simp only [CamState.streamRef] at hi
    subst hi
    cases ok with
    | true => rw [startCamera_some_true]; exact List.mem_cons_self i stopped
    | false => rw [startCamera_some_false]; exact List.mem_cons_self i stopped

/-- Witness for `startCamera_at_most_one_session`: two successful
starts in a row leave exactly stream 1 active, referenced, with
stream 0 stopped. -/
theorem startCamera_at_most_one_session_witness :
    activeStream (runStarts camInit [true, true]) 1 ∧
    (runStarts camInit [true, true]).streamRef = some 1 ∧
    0 ∈ (startCamera true (CamState.mk (some 0) 1 [])).stopped := by
  have h : activeStream (runStarts camInit [true, true]) 1 := by decide
  exact ⟨h, startCamera_at_most_one_session.2.1 [true, true] 1 h,
    startCamera_at_most_one_session.2.2 (CamState.mk (some 0) 1 []) true 0 rfl⟩

/-- The upload handler never touches the busy flag. -/
theorem handleImageUpload_isLoading (f : Option (Option String)) (a : AppState) :
    (handleImageUpload f a).isLoading = a.isLoading := by
  cases f with
  | none => rfl
  | some o => cases o <;> rfl

/-- The capture handler never touches the busy flag. -/
theorem captureImage_isLoading (env : CaptureEnv) (a : AppState) :
    (captureImage env a).isLoading = a.isLoading := by
  unfold captureImage
  split
  · split <;> rfl
  · rfl

/-- One page event preserves the in-flight bookkeeping invariant. -/
theorem flightInv_stepEv (s : SysState) (e : Ev) (h : flightInv s) :
    flightInv (stepEv s e) := by
  obtain ⟨h1, h2⟩ := h
  cases e with
  | uploadEv f =>
    refine ⟨h1, ?_⟩
    simpa [stepEv, handleImageUpload_isLoading] using h2
  | captureEv env =>
    refine ⟨h1, ?_⟩
    simpa [stepEv, captureImage_isLoading] using h2
  | verifyClick =>
    cases hu : s.app.uploadedImage with
    | none =>
      have hs : stepEv s Ev.verifyClick = s := by
        cases hc : s.app.cameraImage <;> cases hl : s.app.isLoading <;>
          simp [stepEv, hu, hc, hl]
      rw [hs]; exact ⟨h1, h2⟩
    | some up =>
      cases hc : s.app.cameraImage with
      | none =>
        have hs : stepEv s Ev.verifyClick = s := by
          cases hl : s.app.isLoading <;> simp [stepEv, hu, hc, hl]
        rw [hs]; exact ⟨h1, h2⟩
      | some cam =>
        cases hl : s.app.isLoading with
        | true =>
          have hs : stepEv s Ev.verifyClick = s := by simp [stepEv, hu, hc, hl]
          rw [hs]; exact ⟨h1, h2⟩
        | false =>
          have hp : s.pending = [] := by
            by_contra hne
            rw [h2.mpr hne] at hl
            simp at hl
          refine ⟨?_, ?_⟩
          · simp [stepEv, hu, hc, hl, hp]
          · simp [stepEv, hu, hc, hl, hp]
  | verifyDone f =>
    cases hp : s.pending with
    | nil =>
      have hs : stepEv s (Ev.verifyDone f) = s := by simp [stepEv, hp]
      rw [hs]; exact ⟨h1, h2⟩
    | cons p rest =>
      obtain ⟨up, cam⟩ := p
      have h1' := h1
      rw [hp] at h1'
      simp only [List.length_cons] at h1'
      have hrest : rest = [] := List.length_eq_zero.mp (by omega)
      subst hrest
      refine ⟨?_, ?_⟩
      · simp [stepEv, hp]
      · simp [stepEv, hp]

/-- The in-flight bookkeeping invariant holds after any event
trace from the initial page state. -/
theorem flightInv_runEvs (s : SysState) (h : flightInv s) (evs : List Ev) :
    flightInv (runEvs s evs) := by
  induction evs generalizing s with
  | nil => exact h
  | cons e rest ih => exact ih (stepEv s e) (flightInv_stepEv s e h)

/-- C6: along every event trace at most one `verifyFaces` execution is
in flight, and clicking Verify while the busy flag is set is a no-op —
the button is disabled, so a second verification can never start while
one is outstanding and two in-flight executions can never race into
the result slot. -/
theorem verify_at_most_one_in_flight :
    (∀ evs : List Ev, (runEvs sysInit evs).pending.length ≤ 1) ∧
    (∀ s : SysState, s.app.isLoading = true → stepEv s Ev.verifyClick = s) := by
  constructor
  · intro evs
    exact (flightInv_runEvs sysInit ⟨by simp [sysInit], by simp [sysInit]⟩ evs).1
  · intro s hl
    cases hu : s.app.uploadedImage with
    | none => cases hc : s.app.cameraImage <;> simp [stepEv, hu, hc, hl]
    | some up =>
      cases hc : s.app.cameraImage with
      | none => simp [stepEv, hu, hc, hl]
      | some cam => simp [stepEv, hu, hc, hl]

/-- Witness for `verify_at_most_one_in_flight`: a full quiet trace,
and a busy page state on which the Verify click does nothing. -/
theorem verify_at_most_one_in_flight_witness :
    (runEvs sysInit quietTrace).pending.length ≤ 1 ∧
    stepEv sysBusy Ev.verifyClick = sysBusy :=
  ⟨verify_at_most_one_in_flight.1 quietTrace,
   verify_at_most_one_in_flight.2 sysBusy rfl⟩

/-- C2 (counterexample): stale results can be displayed.  In the trace
that uploads "refA", captures "live0", clicks Verify, replaces the
reference with "refB" while the verification is in flight, and then
lets the verification complete, the displayed result was computed from
("refA", "live0") although the current reference image is "refB". -/
theorem stale_result_displayed : ¬ staleFree (runEvs sysInit staleTrace) := by
  intro h
  have h2 := h "refA" "live0" rfl
  have hup : (runEvs sysInit staleTrace).app.uploadedImage = some "refB" := rfl
  rw [hup] at h2
  exact absurd h2.1 (by decide)

/-- Computation rule: `captureImage` is a no-op when the canvas or
video ref is missing. -/
theorem captureImage_noop_refs (env : CaptureEnv) (a : AppState)
    (h1 : (env.canvasPresent && env.videoPresent) = false) : captureImage env a = a := by
  simp [captureImage, h1]

/-- Computation rule: `captureImage` is a no-op when no 2d context is
available. -/
theorem captureImage_noop_context (env : CaptureEnv) (a : AppState)
    (h2 : env.contextPresent = false) : captureImage env a = a := by
  simp [captureImage, h2]

/-- Computation rule: with refs and context available, `captureImage`
stores the rasterized frame and clears the result. -/
theorem captureImage_eq (env : CaptureEnv) (a : AppState)
    (h1 : (env.canvasPresent && env.videoPresent) = true)
    (h2 : env.contextPresent = true) :
    captureImage env a =
      { a with cameraImage := some (snapshotData env),
               verificationResult := none, resultPair := none } := by
  simp [captureImage, h1, h2]

/-- One page event preserves the quiet invariant, provided upload and
capture events happen only while no verification is in flight. -/
theorem quietInv_stepEv (s : SysState) (e : Ev) (h : quietInv s)
    (hg : (match e with
           | Ev.uploadEv _ => s.pending.isEmpty
           | Ev.captureEv _ => s.pending.isEmpty
           | _ => true) = true) : quietInv (stepEv s e) := by
  obtain ⟨hsf, hpm⟩ := h
  cases e with
  | uploadEv f =>
    have hp : s.pending = [] := List.isEmpty_iff.mp hg
    cases f with
    | none => exact ⟨hsf, hpm⟩
    | some o =>
      cases o with
      | none => exact ⟨hsf, hpm⟩
      | some d =>
        constructor
        · intro u c hpair
          simp [stepEv, handleImageUpload] at hpair
        · intro p hmem
          simp [stepEv, handleImageUpload, hp] at hmem
  | captureEv env =>
    have hp : s.pending = [] := List.isEmpty_iff.mp hg
    cases hcv : (env.canvasPresent && env.videoPresent) with
    | false =>
      have hs : stepEv s (Ev.captureEv env) = s := by
        simp [stepEv, captureImage_noop_refs env s.app hcv]
      rw [hs]; exact ⟨hsf, hpm⟩
    | true =>
      cases hctx : env.contextPresent with
      | false =>
        have hs : stepEv s (Ev.captureEv env) = s := by
          simp [stepEv, captureImage_noop_context env s.app hctx]
        rw [hs]; exact ⟨hsf, hpm⟩
      | true =>
        constructor
        · intro u c hpair
          simp [stepEv, captureImage_eq env s.app hcv hctx] at hpair
        · intro p hmem
          simp [stepEv, hp] at hmem
  | verifyClick =>
    cases hu : s.app.uploadedImage with
    | none =>
      have hs : stepEv s Ev.verifyClick = s := by
        cases hc : s.app.cameraImage <;> cases hl : s.app.isLoading <;>
          simp [stepEv, hu, hc, hl]
      rw [hs]; exact ⟨hsf, hpm⟩
    | some up =>
      cases hc : s.app.cameraImage with
      | none =>
        have hs : stepEv s Ev.verifyClick = s := by
          cases hl : s.app.isLoading <;> simp [stepEv, hu, hc, hl]
        rw [hs]; exact ⟨hsf, hpm⟩
      | some cam =>
        cases hl : s.app.isLoading with
        | true =>
          have hs : stepEv s Ev.verifyClick = s := by simp [stepEv, hu, hc, hl]
          rw [hs]; exact ⟨hsf, hpm⟩
        | false =>
          constructor
          · intro u c hpair
            simp only [stepEv, hu, hc, hl] at hpair ⊢
            exact ⟨hu ▸ (hsf u c hpair).1, hc ▸ (hsf u c hpair).2⟩
          · intro p hmem
            simp only [stepEv, hu, hc, hl, List.mem_append] at hmem ⊢
            rcases hmem with hm | hm
            · exact ⟨hu ▸ (hpm p hm).1, hc ▸ (hpm p hm).2⟩
            · simp only [List.mem_singleton] at hm
              subst hm
              exact ⟨rfl, rfl⟩
  | verifyDone f =>
    cases hp2 : s.pending with
    | nil =>
      have hs : stepEv s (Ev.verifyDone f) = s := by simp [stepEv, hp2]
      rw [hs]; exact ⟨hsf, hpm⟩
    | cons p rest =>
      obtain ⟨up, cam⟩ := p
      have hio := hpm (up, cam) (by rw [hp2]; exact List.mem_cons_self _ _)
      constructor
      · intro u c hpair
        simp only [stepEv, hp2, Option.some.injEq, Prod.mk.injEq] at hpair ⊢
        obtain ⟨h1, h2⟩ := hpair
        subst h1; subst h2
        exact ⟨hio.1, hio.2⟩
      · intro q hmem
        simp only [stepEv, hp2] at hmem ⊢
        exact hpm q (by rw [hp2]; exact List.mem_cons_of_mem _ hmem)

/-- The quiet invariant holds along any event trace whose uploads and
captures all occur while no verification is in flight. -/
theorem quietInv_runEvs (s : SysState) (evs : List Ev) (h : quietInv s)
    (hq : noMidflightReplace s evs = true) : quietInv (runEvs s evs) := by
  induction evs generalizing s with
  | nil => exact h
  | cons e rest ih =>
    simp only [noMidflightReplace, Bool.and_eq_true] at hq
    exact ih (stepEv s e) (quietInv_stepEv s e h hq.1) hq.2

/-- C2 (amended): replacing the reference image or taking a new
snapshot clears any displayed result in the same state update; and in
every trace in which inputs are replaced only while no verification is
in flight, a displayed result always corresponds to the exact current
input pair.  (The unconditional claim fails: an input replaced while a
verification is in flight does not stop that verification from storing
its — now stale — result, see `stale_result_displayed`.) -/
theorem inputs_replace_clears_result :
    (∀ s : SysState, ∀ d : String,
      (stepEv s (Ev.uploadEv (some (some d)))).app.verificationResult = none ∧
      (stepEv s (Ev.uploadEv (some (some d)))).app.resultPair = none) ∧
    (∀ s : SysState, ∀ env : CaptureEnv,
      (env.canvasPresent && env.videoPresent) = true → env.contextPresent = true →
      (stepEv s (Ev.captureEv env)).app.verificationResult = none ∧
      (stepEv s (Ev.captureEv env)).app.resultPair = none) ∧
    (∀ evs : List Ev, noMidflightReplace sysInit evs = true →
      staleFree (runEvs sysInit evs)) := by
  refine ⟨?_, ?_, ?_⟩
  · intro s d
    exact ⟨rfl, rfl⟩
  · intro s env h1 h2
    constructor <;> simp [stepEv, captureImage_eq env s.app h1 h2]
  · intro evs hq
    have hsf0 : staleFree sysInit := by
      intro u c hx
      simp [sysInit] at hx
    have hpm0 : pendingMatches sysInit := by
      intro p hx
      simp [sysInit] at hx
    exact (quietInv_runEvs sysInit evs ⟨hsf0, hpm0⟩ hq).1

/-- Witness for `inputs_replace_clears_result`: an upload clears the
result of the busy state, and the quiet trace ends stale-free. -/
theorem inputs_replace_clears_result_witness :
    (stepEv sysBusy (Ev.uploadEv (some (some "refB")))).app.verificationResult = none ∧
    staleFree (runEvs sysInit quietTrace) :=
  ⟨(inputs_replace_clears_result.1 sysBusy "refB").1,
   inputs_replace_clears_result.2.2 quietTrace rfl⟩
